import Mathlib

/-!
Verification of the boxtracker inventory state container, its persistence
layer and the localStorage-to-IndexedDB migration step, shallowly embedded
from the TypeScript sources (`src/services/inventory.service.ts` in both its
localStorage and IndexedDB versions, and the `AppComponent` caller).

Conventions of the embedding:
* `crypto.randomUUID()` and `Date.now()` are passed in as explicit arguments
  (`newId`, `now`), since the code only ever reads them once per mutation.
* JavaScript `x || d` on strings is modelled by `orElseStr`: a missing field
  (`none`) and a present-but-empty string are both falsy; arrays are always
  truthy, so `itemData.tags || []` only defaults the missing case.
* `Array.prototype.sort` with comparator `(a, b) => b.k - a.k` is modelled by
  `List.mergeSort` with the boolean relation `b.k ≤ a.k`.
* A raw localStorage value is `Option (Blob α)`: `none` for an absent key,
  `Blob.empty` for the stored empty string (falsy, so never parsed),
  `Blob.malformed` for a non-empty string on which `JSON.parse` throws, and
  `Blob.wellFormed l` for a string parsing to the array `l`.
* A thrown JavaScript exception over mutable state is modelled by
  `Except σ σ`: `Except.error s` is a throw with the mutable state at the
  throw point equal to `s`.
-/

namespace BoxTracker

/-- `interface Box` from `inventory.service.ts`. -/
structure Box where
  id : String
  name : String
  isFull : Bool
  createdAt : Nat
deriving DecidableEq, Repr

/-- `interface Item` from `inventory.service.ts`. -/
structure Item where
  id : String
  boxId : String
  boxName : String
  imageUrl : String
  name : String
  description : String
  tags : List String
  timestamp : Nat
deriving DecidableEq, Repr

/-- The in-memory signals of `InventoryService`: `boxes`, `items`,
`currentBoxId`. -/
structure InventoryState where
  boxes : List Box
  items : List Item
  currentBoxId : Option String
deriving DecidableEq, Repr

/-- The initial signal values: `signal<Box[]>([])`, `signal<Item[]>([])`,
`signal<string | null>(null)`. -/
def emptyState : InventoryState :=
  { boxes := [], items := [], currentBoxId := none }

/-- `this.boxes().find(b => b.id === boxId)`. -/
def findBox (boxes : List Box) (boxId : String) : Option Box :=
  boxes.find? (fun b => b.id == boxId)

/-- JavaScript `v || d` for a possibly-missing string field: `undefined` and
the empty string are falsy. -/
def orElseStr (v : Option String) (d : String) : String :=
  match v with
  | none => d
  | some s => if s = "" then d else s

/-- JavaScript `v || []` for a possibly-missing array field: a present array
is truthy even when empty. -/
def orElseTags (v : Option (List String)) : List String :=
  match v with
  | none => []
  | some ts => ts

/-- `Partial<Item>` as accepted by `addItem`: only the four optional fields
the method reads. -/
structure PartialItem where
  imageUrl : Option String := none
  name : Option String := none
  description : Option String := none
  tags : Option (List String) := none
deriving DecidableEq, Repr

/-- `InventoryService.addBox(name)`: unconditionally constructs a new `Box`
with a fresh id, `isFull = false`, `createdAt = now`, prepends it and selects
it. There is no empty-name check in this method. -/
def addBox (s : InventoryState) (newId : String) (name : String) (now : Nat) :
    InventoryState :=
  let newBox : Box := { id := newId, name := name, isFull := false, createdAt := now }
  { s with boxes := newBox :: s.boxes, currentBoxId := some newBox.id }

/-- JavaScript `String.prototype.trim()`: strip leading and trailing
whitespace (written over the character list so it evaluates by `decide`). -/
def trimString (s : String) : String :=
  String.mk (((s.data.dropWhile Char.isWhitespace).reverse.dropWhile
    Char.isWhitespace).reverse)

/-- `AppComponent.createNewBox(name)`: `if (!name.trim()) return;
this.inventory.addBox(name.trim());`. The empty-name guard lives here, in
the UI caller, not in `addBox`. -/
def createNewBox (s : InventoryState) (newId : String) (name : String) (now : Nat) :
    InventoryState :=
  if trimString name = "" then s else addBox s newId (trimString name) now

/-- The `newItem` record literal built inside `addItem`. -/
def builtItem (newId boxId : String) (box : Box) (itemData : PartialItem)
    (now : Nat) : Item :=
  { id := newId
    boxId := boxId
    boxName := box.name
    imageUrl := orElseStr itemData.imageUrl ""
    name := orElseStr itemData.name "Unknown Item"
    description := orElseStr itemData.description ""
    tags := orElseTags itemData.tags
    timestamp := now }

/-- `InventoryService.addItem(boxId, itemData)`: silently no-ops when the box
is absent, otherwise builds the new `Item` with `||`-defaults and prepends it. -/
def addItem (s : InventoryState) (newId : String) (boxId : String)
    (itemData : PartialItem) (now : Nat) : InventoryState :=
  match findBox s.boxes boxId with
  | none => s
  | some box =>
    { s with items := builtItem newId boxId box itemData now :: s.items }

/-- `InventoryService.updateBoxStatus(boxId, isFull)` (IndexedDB version):
looks the box up, no-ops when absent, otherwise replaces every box with that
id by the shallow merge `{ ...box, isFull }`. -/
def updateBoxStatus (s : InventoryState) (boxId : String) (isFull : Bool) :
    InventoryState :=
  match findBox s.boxes boxId with
  | none => s
  | some box =>
    let updatedBox : Box := { box with isFull := isFull }
    { s with boxes := s.boxes.map (fun b => if b.id == boxId then updatedBox else b) }

/-- `InventoryService.selectBox(boxId)`. -/
def selectBox (s : InventoryState) (boxId : String) : InventoryState :=
  { s with currentBoxId := some boxId }

/-- The comparator `(a, b) => b.timestamp - a.timestamp` as a boolean
relation: `a` may precede `b` iff `b.timestamp ≤ a.timestamp`. -/
def tsDesc (a b : Item) : Bool := b.timestamp ≤ a.timestamp

/-- The comparator `(a, b) => b.createdAt - a.createdAt` as a boolean
relation. -/
def createdDesc (a b : Box) : Bool := b.createdAt ≤ a.createdAt

/-- The computed signal `itemsInCurrentBox`: filter the items by
`i.boxId === currentBoxId` (false when the pointer is `null`), then sort by
descending timestamp. -/
def itemsInCurrentBox (s : InventoryState) : List Item :=
  (s.items.filter (fun i => s.currentBoxId == some i.boxId)).mergeSort tsDesc

/-- The computed signal `currentBox`:
`boxes().find(b => b.id === currentBoxId()) || null`. -/
def currentBox (s : InventoryState) : Option Box :=
  s.boxes.find? (fun b => s.currentBoxId == some b.id)

/-! ### Durable store: IndexedDB object stores keyed by `id` -/

/-- `store.put(value)` on an object store created with `keyPath: 'id'`:
an upsert that replaces the record with the same key, or appends the record
when its key is absent. -/
def putByKey {α : Type} (key : α → String) (t : List α) (v : α) : List α :=
  if t.any (fun w => key w == key v) then
    t.map (fun w => if key w == key v then v else w)
  else
    t ++ [v]

/-- `for (const r of rs) await putToStore(store, r)`: sequential upserts. -/
def putAllByKey {α : Type} (key : α → String) (t : List α) (vs : List α) : List α :=
  vs.foldl (putByKey key) t

/-- `InventoryService.loadData()` (IndexedDB version), success path:
`getAll` both tables, then
`boxes.sort((a, b) => b.createdAt - a.createdAt)` and
`items.sort((a, b) => b.timestamp - a.timestamp)` into the signals. -/
def loadData (dbBoxes : List Box) (dbItems : List Item) (s : InventoryState) :
    InventoryState :=
  { s with
    boxes := dbBoxes.mergeSort createdDesc
    items := dbItems.mergeSort tsDesc }

/-! ### localStorage blobs, load, and migration -/

/-- A raw localStorage string, classified by what `JSON.parse` would do to
it: `empty` is the stored empty string (falsy, never parsed), `malformed`
is a non-empty string on which `JSON.parse` throws, `wellFormed l` is a
non-empty string parsing to the array `l`. -/
inductive Blob (α : Type) where
  | empty : Blob α
  | malformed : Blob α
  | wellFormed : List α → Blob α
deriving DecidableEq, Repr

/-- JavaScript truthiness of `localStorage.getItem(k)`: `null` and the empty
string are falsy, any other string is truthy. -/
def blobTruthy {α : Type} : Option (Blob α) → Bool
  | none => false
  | some Blob.empty => false
  | some Blob.malformed => true
  | some (Blob.wellFormed _) => true

/-- The items half of `loadFromStorage` (localStorage version):
`if (itemsData) this.items.set(JSON.parse(itemsData));`. An `Except.error`
carries the signal state at the throw point. -/
def loadItemsPhase (lsItems : Option (Blob Item)) (s : InventoryState) :
    Except InventoryState InventoryState :=
  match lsItems with
  | some Blob.malformed => Except.error s
  | some (Blob.wellFormed its) => Except.ok { s with items := its }
  | _ => Except.ok s

/-- `InventoryService.loadFromStorage()` (localStorage version): reads both
keys, then `if (boxesData) this.boxes.set(JSON.parse(boxesData));` followed
by the items phase. `JSON.parse` is not wrapped in try/catch, so a malformed
blob throws; the `Except.error` payload is the signal state at that point. -/
def loadFromStorage (lsBoxes : Option (Blob Box)) (lsItems : Option (Blob Item))
    (s : InventoryState) : Except InventoryState InventoryState :=
  match lsBoxes with
  | some Blob.malformed => Except.error s
  | some (Blob.wellFormed bs) => loadItemsPhase lsItems { s with boxes := bs }
  | _ => loadItemsPhase lsItems s

/-- The combined persisted state seen by `migrateFromLocalStorage`: the two
legacy localStorage keys (`clutter_boxes`, `clutter_items`), the two
IndexedDB tables, and a count of `console.error` calls. -/
structure StorageState where
  lsBoxes : Option (Blob Box)
  lsItems : Option (Blob Item)
  dbBoxes : List Box
  dbItems : List Item
  errorLog : Nat
deriving DecidableEq, Repr

/-- The boxes block of `migrateFromLocalStorage`: if the boxes blob is
truthy, try to parse it; on success put every box and
`localStorage.removeItem('clutter_boxes')`; on a parse throw, the catch logs
an error and the blob is left in place. -/
def migrateBoxesStep (st : StorageState) : StorageState :=
  match st.lsBoxes with
  | some (Blob.wellFormed bs) =>
    { st with dbBoxes := putAllByKey Box.id st.dbBoxes bs, lsBoxes := none }
  | some Blob.malformed => { st with errorLog := st.errorLog + 1 }
  | _ => st

/-- The items block of `migrateFromLocalStorage`, symmetric to the boxes
block. -/
def migrateItemsStep (st : StorageState) : StorageState :=
  match st.lsItems with
  | some (Blob.wellFormed its) =>
    { st with dbItems := putAllByKey Item.id st.dbItems its, lsItems := none }
  | some Blob.malformed => { st with errorLog := st.errorLog + 1 }
  | _ => st

/-- `InventoryService.migrateFromLocalStorage()`: early return when both
legacy values are falsy, otherwise run the boxes block then the items
block. -/
def migrateFromLocalStorage (st : StorageState) : StorageState :=
  if blobTruthy st.lsBoxes = false ∧ blobTruthy st.lsItems = false then st
  else migrateItemsStep (migrateBoxesStep st)

/-- A sequence of `addBox` calls: each call carries its fresh id, the name
argument, and the `Date.now()` reading at that call. -/
def runAddBoxes (s : InventoryState) (calls : List (String × String × Nat)) :
    InventoryState :=
  calls.foldl (fun st c => addBox st c.1 c.2.1 c.2.2) s

/-! ### Concrete fixtures used by witnesses and counterexamples -/

/-- A sample box. -/
def bx1 : Box := { id := "b1", name := "Garage", isFull := false, createdAt := 0 }

/-- A sample item stored in `bx1`. -/
def it1 : Item :=
  { id := "i1", boxId := "b1", boxName := "Garage", imageUrl := ""
    name := "Drill", description := "", tags := [], timestamp := 3 }

/-- A sample state holding `bx1` selected and no items. -/
def s1ex : InventoryState := { boxes := [bx1], items := [], currentBoxId := some "b1" }

/-! ### C1: empty-name `addBox` -/

/-- C1 counterexample: `addBox` itself has no empty-name check. Calling it
with `""` (whose trimmed form is empty) on the empty state is not a no-op:
it adds a box and moves the current-box pointer, refuting the claim that
`addBox(name)` with an empty trimmed name leaves the box collection and the
current-box pointer unchanged. -/
theorem addBox_empty_name_not_noop :
    trimString "" = "" ∧
    (addBox emptyState "b1" "" 0).boxes.length = 1 ∧
    emptyState.boxes.length = 0 ∧
    (addBox emptyState "b1" "" 0).currentBoxId = some "b1" ∧
    emptyState.currentBoxId = none := by
  refine ⟨by decide, rfl, rfl, rfl, rfl⟩

/-- C1 (amended): the empty-name guard lives in the UI caller
`createNewBox`, which returns without touching the state container whenever
the trimmed name is empty; `addBox` itself is unguarded. -/
theorem createNewBox_empty_trim_noop (s : InventoryState) (newId name : String)
    (now : Nat) (h : trimString name = "") :
    createNewBox s newId name now = s := by
  simp [createNewBox, h]

/-- Witness for `createNewBox_empty_trim_noop` at the whitespace name
`"   "`. -/
theorem createNewBox_empty_trim_noop_witness :
    trimString "   " = "" ∧ createNewBox emptyState "b9" "   " 7 = emptyState :=
  ⟨by decide, createNewBox_empty_trim_noop emptyState "b9" "   " 7 (by decide)⟩

/-! ### C2: `addItem` defaults and silent no-op -/

/-- C2: `addItem` is a silent no-op when no box has id `boxId`; otherwise it
prepends exactly one new item whose `boxName` is the referenced box's name,
whose `timestamp` is the current time, and whose missing optional fields
default to `imageUrl = ""`, `name = "Unknown Item"`, `description = ""`,
`tags = []`; the box collection and current-box pointer are untouched. -/
theorem addItem_spec (s : InventoryState) (newId boxId : String) (d : PartialItem)
    (now : Nat) :
    (findBox s.boxes boxId = none → addItem s newId boxId d now = s) ∧
    (∀ box, findBox s.boxes boxId = some box →
      (addItem s newId boxId d now).boxes = s.boxes ∧
      (addItem s newId boxId d now).currentBoxId = s.currentBoxId ∧
      ∃ it : Item,
        (addItem s newId boxId d now).items = it :: s.items ∧
        it.id = newId ∧ it.boxId = boxId ∧ it.boxName = box.name ∧
        it.timestamp = now ∧
        (d.imageUrl = none → it.imageUrl = "") ∧
        (d.name = none → it.name = "Unknown Item") ∧
        (d.description = none → it.description = "") ∧
        (d.tags = none → it.tags = [])) := by
  constructor
  · intro h
    simp [addItem, h]
  · intro box h
    refine ⟨by simp [addItem, h], by simp [addItem, h],
      builtItem newId boxId box d now,
      by simp [addItem, h], rfl, rfl, rfl, rfl, ?_, ?_, ?_, ?_⟩
    · intro hh; simp [builtItem, orElseStr, hh]
    · intro hh; simp [builtItem, orElseStr, hh]
    · intro hh; simp [builtItem, orElseStr, hh]
    · intro hh; simp [builtItem, orElseTags, hh]

/-- Witness for `addItem_spec`: a dangling box id is a no-op on `s1ex`, and
a valid box id leaves the box collection unchanged. -/
theorem addItem_spec_witness :
    addItem s1ex "i9" "missing" {} 5 = s1ex ∧
    (addItem s1ex "i9" "b1" {} 5).boxes = s1ex.boxes :=
  ⟨(addItem_spec s1ex "i9" "missing" {} 5).1 (by decide),
   ((addItem_spec s1ex "i9" "b1" {} 5).2 bx1 (by decide)).1⟩

/-! ### C10: falsy-but-present fields are also defaulted -/

/-- C10: because `addItem` uses JavaScript `||`, a present-but-empty string
field is replaced by the default just like a missing one (`name: ""` becomes
`"Unknown Item"`, empty `imageUrl`/`description` stay the empty-string
default), while a provided tags array — truthy even when empty — is kept
exactly as given. -/
theorem addItem_falsy_defaults (s : InventoryState) (newId boxId : String)
    (box : Box) (d : PartialItem) (now : Nat)
    (h : findBox s.boxes boxId = some box) :
    ∃ it : Item,
      (addItem s newId boxId d now).items = it :: s.items ∧
      (d.name = some "" → it.name = "Unknown Item") ∧
      (d.imageUrl = some "" → it.imageUrl = "") ∧
      (d.description = some "" → it.description = "") ∧
      (∀ ts, d.tags = some ts → it.tags = ts) := by
  refine ⟨builtItem newId boxId box d now,
    by simp [addItem, h], ?_, ?_, ?_, ?_⟩
  · intro hh; simp [builtItem, orElseStr, hh]
  · intro hh; simp [builtItem, orElseStr, hh]
  · intro hh; simp [builtItem, orElseStr, hh]
  · intro ts hh; simp [builtItem, orElseTags, hh]

/-- Witness for `addItem_falsy_defaults`: all four optional fields present
but falsy-or-empty on a valid box id. -/
theorem addItem_falsy_defaults_witness :
    ∃ it : Item,
      (addItem s1ex "i2" "b1" ⟨some "", some "", some "", some []⟩ 7).items
        = it :: s1ex.items ∧
      it.name = "Unknown Item" ∧ it.imageUrl = "" ∧ it.description = "" ∧
      it.tags = [] := by
  obtain ⟨it, h1, h2, h3, h4, h5⟩ :=
    addItem_falsy_defaults s1ex "i2" "b1" bx1
      ⟨some "", some "", some "", some []⟩ 7 (by decide)
  exact ⟨it, h1, h2 rfl, h3 rfl, h4 rfl, h5 [] rfl⟩

/-! ### C3: the `itemsInCurrentBox` derived view -/

/-- Helper: the view is empty whenever no stored item's `boxId` matches the
selected pointer. -/
lemma itemsInCurrentBox_eq_nil_of_no_match (s : InventoryState) (cid : String)
    (hc : s.currentBoxId = some cid) (hno : ∀ i ∈ s.items, i.boxId ≠ cid) :
    itemsInCurrentBox s = [] := by
  have hfil : s.items.filter (fun i => s.currentBoxId == some i.boxId) = [] := by
    rw [List.filter_eq_nil_iff]
    intro i hi
    simp only [hc, beq_iff_eq, Option.some.injEq]
    exact fun e => hno i hi e.symm
  simp [itemsInCurrentBox, hfil]

/-- C3: `itemsInCurrentBox` is a permutation of the items whose `boxId`
equals the current-box pointer, is sorted by descending timestamp, and is
empty when no box is selected, when the selected box owns no items, or when
the pointer dangles (given the referential-integrity invariant that every
stored item's `boxId` names an existing box). -/
theorem itemsInCurrentBox_spec (s : InventoryState) :
    (itemsInCurrentBox s).Perm
      (s.items.filter (fun i => s.currentBoxId == some i.boxId)) ∧
    List.Pairwise (fun a b => tsDesc a b = true) (itemsInCurrentBox s) ∧
    (s.currentBoxId = none → itemsInCurrentBox s = []) ∧
    (∀ cid, s.currentBoxId = some cid → (∀ i ∈ s.items, i.boxId ≠ cid) →
      itemsInCurrentBox s = []) ∧
    (∀ cid, s.currentBoxId = some cid → findBox s.boxes cid = none →
      (∀ i ∈ s.items, (findBox s.boxes i.boxId).isSome = true) →
      itemsInCurrentBox s = []) := by
  refine ⟨List.mergeSort_perm _ _, ?_, ?_, ?_, ?_⟩
  · show List.Pairwise (fun a b => tsDesc a b = true)
      ((s.items.filter (fun i => s.currentBoxId == some i.boxId)).mergeSort tsDesc)
    refine List.sorted_mergeSort ?_ ?_ _
    · intro a b c hab hbc
      simp only [tsDesc, decide_eq_true_eq] at *
      omega
    · intro a b
      simp only [tsDesc, Bool.or_eq_true, decide_eq_true_eq]
      omega
  · intro h
    simp [itemsInCurrentBox, h]
  · exact fun cid hc hno => itemsInCurrentBox_eq_nil_of_no_match s cid hc hno
  · intro cid hc hdangling href
    refine itemsInCurrentBox_eq_nil_of_no_match s cid hc ?_
    intro i hi he
    have := href i hi
    rw [he, hdangling] at this
    simp at this

/-- Witness for `itemsInCurrentBox_spec`: a `null` pointer and a dangling
pointer both yield the empty view on concrete states. -/
theorem itemsInCurrentBox_spec_witness :
    itemsInCurrentBox { boxes := [bx1], items := [it1], currentBoxId := none } = [] ∧
    itemsInCurrentBox { boxes := [bx1], items := [it1], currentBoxId := some "ghost" } = [] :=
  ⟨(itemsInCurrentBox_spec _).2.2.1 rfl,
   (itemsInCurrentBox_spec _).2.2.2.2 "ghost" rfl (by decide) (by decide)⟩

/-! ### C4: sequences of `addBox` calls -/

/-- Helper: `runAddBoxes` adds one box per call and keeps the collection
newest-first whenever the clock readings dominate every box already
present. -/
lemma runAddBoxes_general (calls : List (String × String × Nat))
    (s : InventoryState)
    (hclock : List.Pairwise (fun c d : String × String × Nat => c.2.2 ≤ d.2.2) calls)
    (hsorted : List.Pairwise (fun a b => createdDesc a b = true) s.boxes)
    (hbound : ∀ b ∈ s.boxes, ∀ c ∈ calls, b.createdAt ≤ c.2.2) :
    (runAddBoxes s calls).boxes.length = s.boxes.length + calls.length ∧
    List.Pairwise (fun a b => createdDesc a b = true) (runAddBoxes s calls).boxes := by
  induction calls generalizing s with
  | nil => simpa [runAddBoxes] using hsorted
  | cons c cs ih =>
    have hstep : runAddBoxes s (c :: cs) = runAddBoxes (addBox s c.1 c.2.1 c.2.2) cs := rfl
    rw [hstep]
    have hs' : List.Pairwise (fun a b => createdDesc a b = true)
        (addBox s c.1 c.2.1 c.2.2).boxes := by
      simp only [addBox]
      refine List.Pairwise.cons ?_ hsorted
      intro b hb
      simp only [createdDesc, decide_eq_true_eq]
      exact hbound b hb c (List.mem_cons_self _ _)
    have hb' : ∀ b ∈ (addBox s c.1 c.2.1 c.2.2).boxes, ∀ d ∈ cs, b.createdAt ≤ d.2.2 := by
      intro b hb d hd
      simp only [addBox, List.mem_cons] at hb
      rcases hb with rfl | hb
      · exact (List.pairwise_cons.mp hclock).1 d hd
      · exact hbound b hb d (List.mem_cons_of_mem _ hd)
    have hrec := ih (addBox s c.1 c.2.1 c.2.2) (List.pairwise_cons.mp hclock).2 hs' hb'
    refine ⟨?_, hrec.2⟩
    rw [hrec.1]
    simp only [addBox, List.length_cons]
    omega

/-- C4: starting from the empty state, a sequence of `addBox` calls with
non-empty names and nondecreasing clock readings yields a box collection
whose length equals the number of calls and which is ordered newest-first
by `createdAt`. -/
theorem runAddBoxes_spec (calls : List (String × String × Nat))
    (hname : ∀ c ∈ calls, trimString c.2.1 ≠ "")
    (hclock : List.Pairwise (fun c d : String × String × Nat => c.2.2 ≤ d.2.2) calls) :
    (runAddBoxes emptyState calls).boxes.length = calls.length ∧
    List.Pairwise (fun a b => createdDesc a b = true)
      (runAddBoxes emptyState calls).boxes := by
  have h := runAddBoxes_general calls emptyState hclock (by simp [emptyState])
    (by simp [emptyState])
  simpa [emptyState] using h

/-- Witness for `runAddBoxes_spec` on two concrete calls with clock readings
1 then 2. -/
theorem runAddBoxes_spec_witness :
    (runAddBoxes emptyState [("a", "Attic", 1), ("b", "Bedroom", 2)]).boxes.length = 2 ∧
    List.Pairwise (fun a b => createdDesc a b = true)
      (runAddBoxes emptyState [("a", "Attic", 1), ("b", "Bedroom", 2)]).boxes :=
  runAddBoxes_spec [("a", "Attic", 1), ("b", "Bedroom", 2)] (by decide) (by decide)

/-! ### C5: `updateBoxStatus` twice restores the flag -/

/-- Helper: both `updateBoxStatus` branches leave the item collection
alone. -/
lemma updateBoxStatus_items (s : InventoryState) (bid : String) (v : Bool) :
    (updateBoxStatus s bid v).items = s.items := by
  unfold updateBoxStatus
  cases findBox s.boxes bid <;> rfl

/-- Helper: both `updateBoxStatus` branches leave the current-box pointer
alone. -/
lemma updateBoxStatus_currentBoxId (s : InventoryState) (bid : String) (v : Bool) :
    (updateBoxStatus s bid v).currentBoxId = s.currentBoxId := by
  unfold updateBoxStatus
  cases findBox s.boxes bid <;> rfl

/-- Helper: `find?` by id over a list whose matching entries were replaced
by `u` (with `u.id = bid`) finds `u` exactly when the original find
succeeded. -/
lemma findBox_map_update (l : List Box) (bid : String) (u : Box)
    (hu : u.id = bid) :
    findBox (l.map (fun b => if b.id == bid then u else b)) bid
      = (findBox l bid).map (fun _ => u) := by
  induction l with
  | nil => rfl
  | cons a l ih =>
    by_cases h : a.id = bid
    · have ha : (a.id == bid) = true := by simp [h]
      have hu' : (u.id == bid) = true := by simp [hu]
      simp only [findBox, List.map_cons, List.find?_cons, ha, if_true, hu',
        Option.map_some']
    · have ha : (a.id == bid) = false := by simp [h]
      simp only [findBox, List.map_cons, List.find?_cons, ha, Bool.false_eq_true,
        if_false]
      exact ih

/-- Helper: the boxes list produced by one `updateBoxStatus` call on an
existing box. -/
lemma updateBoxStatus_boxes (s : InventoryState) (bid : String) (v : Bool)
    (box : Box) (h : findBox s.boxes bid = some box) :
    (updateBoxStatus s bid v).boxes
      = s.boxes.map (fun b => if b.id == bid then { box with isFull := v } else b) := by
  simp [updateBoxStatus, h]

/-- Helper: a found box's id matches the searched id. -/
lemma findBox_id (l : List Box) (bid : String) (box : Box)
    (h : findBox l bid = some box) : box.id = bid := by
  have := List.find?_some h
  simpa using this

/-- C5: on a state containing a box with id `bid`, sealing then unsealing
(`updateBoxStatus bid true` then `updateBoxStatus bid false`) leaves the box
collection equal to the original with only that box's `isFull` flag set to
`false` (its `id`, `name` and `createdAt` untouched); boxes with a different
id, the item collection, and the current-box pointer are all unchanged. -/
theorem updateBoxStatus_pair_spec (s : InventoryState) (bid : String) (box : Box)
    (h : findBox s.boxes bid = some box) :
    (updateBoxStatus (updateBoxStatus s bid true) bid false).boxes
      = s.boxes.map (fun b => if b.id == bid then { box with isFull := false } else b) ∧
    findBox (updateBoxStatus (updateBoxStatus s bid true) bid false).boxes bid
      = some { box with isFull := false } ∧
    (∀ b ∈ s.boxes, b.id ≠ bid →
      b ∈ (updateBoxStatus (updateBoxStatus s bid true) bid false).boxes) ∧
    (updateBoxStatus (updateBoxStatus s bid true) bid false).items = s.items ∧
    (updateBoxStatus (updateBoxStatus s bid true) bid false).currentBoxId
      = s.currentBoxId := by
  have hbid : box.id = bid := findBox_id s.boxes bid box h
  have h1 : (updateBoxStatus s bid true).boxes
      = s.boxes.map (fun b => if b.id == bid then { box with isFull := true } else b) :=
    updateBoxStatus_boxes s bid true box h
  have hfind1 : findBox (updateBoxStatus s bid true).boxes bid
      = some { box with isFull := true } := by
    rw [h1, findBox_map_update s.boxes bid { box with isFull := true } hbid, h]
    rfl
  have h2 : (updateBoxStatus (updateBoxStatus s bid true) bid false).boxes
      = (updateBoxStatus s bid true).boxes.map
          (fun b => if b.id == bid then { box with isFull := false } else b) := by
    have hub := updateBoxStatus_boxes (updateBoxStatus s bid true) bid false
      { box with isFull := true } hfind1
    simpa using hub
  have hmain : (updateBoxStatus (updateBoxStatus s bid true) bid false).boxes
      = s.boxes.map (fun b => if b.id == bid then { box with isFull := false } else b) := by
    rw [h2, h1, List.map_map]
    refine List.map_congr_left ?_
    intro b _
    by_cases hb : b.id = bid
    · simp [Function.comp, hb, hbid]
    · simp [Function.comp, hb]
  have hitems : (updateBoxStatus (updateBoxStatus s bid true) bid false).items
      = s.items := by
    rw [updateBoxStatus_items, updateBoxStatus_items]
  have hptr : (updateBoxStatus (updateBoxStatus s bid true) bid false).currentBoxId
      = s.currentBoxId := by
    rw [updateBoxStatus_currentBoxId, updateBoxStatus_currentBoxId]
  refine ⟨hmain, ?_, ?_, hitems, hptr⟩
  · rw [hmain, findBox_map_update s.boxes bid { box with isFull := false } hbid, h]
    rfl
  · intro b hb hne
    rw [hmain]
    refine List.mem_map.mpr ⟨b, hb, ?_⟩
    simp [hne]

/-- Witness for `updateBoxStatus_pair_spec` on the concrete state `s1ex`. -/
theorem updateBoxStatus_pair_spec_witness :
    findBox (updateBoxStatus (updateBoxStatus s1ex "b1" true) "b1" false).boxes "b1"
      = some { bx1 with isFull := false } :=
  (updateBoxStatus_pair_spec s1ex "b1" bx1 (by decide)).2.1

/-! ### C6: durable round-trip -/

/-- Helper: writing records whose keys are fresh for the table and mutually
distinct appends them in order. -/
lemma putAllByKey_append {α : Type} (key : α → String) (t : List α) (vs : List α)
    (hfresh : ∀ v ∈ vs, ∀ w ∈ t, key w ≠ key v)
    (hnodup : (vs.map key).Nodup) :
    putAllByKey key t vs = t ++ vs := by
  induction vs generalizing t with
  | nil => simp [putAllByKey]
  | cons v vs ih =>
    have hput : putByKey key t v = t ++ [v] := by
      have hany : t.any (fun w => key w == key v) = false := by
        rw [List.any_eq_false]
        intro w hw
        simpa using hfresh v (List.mem_cons_self _ _) w hw
      simp [putByKey, hany]
    have hstep : putAllByKey key t (v :: vs) = putAllByKey key (t ++ [v]) vs := by
      simp [putAllByKey, hput]
    rw [hstep, ih (t ++ [v]) ?_ ?_]
    · simp
    · intro u hu w hw
      rcases List.mem_append.mp hw with hw | hw
      · exact hfresh u (List.mem_cons_of_mem _ hu) w hw
      · rcases List.mem_singleton.mp hw with rfl
        have hv : key u ∈ vs.map key := List.mem_map_of_mem key hu
        intro he
        exact (List.nodup_cons.mp (by simpa using hnodup)).1 (he ▸ hv)
    · exact (List.nodup_cons.mp (by simpa using hnodup)).2

/-- C6: writing every box and every item of a pair of collections with
unique ids into empty transactional tables, then reloading an empty
in-memory state through `loadData`, yields box and item collections that
are permutations of (hence set-equal to, ignoring order) the originals. -/
theorem storage_roundtrip_spec (boxes : List Box) (items : List Item)
    (hb : (boxes.map Box.id).Nodup) (hi : (items.map Item.id).Nodup) :
    (loadData (putAllByKey Box.id [] boxes) (putAllByKey Item.id [] items)
        emptyState).boxes.Perm boxes ∧
    (loadData (putAllByKey Box.id [] boxes) (putAllByKey Item.id [] items)
        emptyState).items.Perm items := by
  have hbw : putAllByKey Box.id [] boxes = boxes := by
    simpa using putAllByKey_append Box.id [] boxes (by simp) hb
  have hiw : putAllByKey Item.id [] items = items := by
    simpa using putAllByKey_append Item.id [] items (by simp) hi
  rw [hbw, hiw]
  exact ⟨List.mergeSort_perm _ _, List.mergeSort_perm _ _⟩

/-- Witness for `storage_roundtrip_spec` on concrete one-element
collections. -/
theorem storage_roundtrip_spec_witness :
    (loadData (putAllByKey Box.id [] [bx1]) (putAllByKey Item.id [] [it1])
        emptyState).boxes.Perm [bx1] ∧
    (loadData (putAllByKey Box.id [] [bx1]) (putAllByKey Item.id [] [it1])
        emptyState).items.Perm [it1] :=
  storage_roundtrip_spec [bx1] [it1] (by decide) (by decide)

/-! ### C9: malformed JSON during `loadFromStorage` -/

/-- C9 counterexample: with a malformed boxes blob and a perfectly
well-formed items blob, `loadFromStorage` throws (`Except.error`): the parse
failure is not logged-and-swallowed, the load raises, and the well-formed
items collection is never set either — refuting the claim that the failure
only defaults the affected collection without raising. -/
theorem loadFromStorage_malformed_raises :
    loadFromStorage (some Blob.malformed) (some (Blob.wellFormed [it1])) emptyState
      = Except.error emptyState := rfl

/-- C9 (amended): a `JSON.parse` failure inside `loadFromStorage` is
uncaught and propagates: a malformed boxes blob throws before either signal
is set, and a malformed items blob throws after the boxes signal was already
set; the collection whose parse failed (and any collection read after it)
keeps its previous value, and nothing is logged. -/
theorem loadFromStorage_malformed_spec (lsBoxes : Option (Blob Box))
    (lsItems : Option (Blob Item)) (s : InventoryState) :
    (lsBoxes = some Blob.malformed →
      loadFromStorage lsBoxes lsItems s = Except.error s) ∧
    (∀ bs, lsBoxes = some (Blob.wellFormed bs) → lsItems = some Blob.malformed →
      loadFromStorage lsBoxes lsItems s = Except.error { s with boxes := bs }) := by
  constructor
  · intro h
    rw [h]
    rfl
  · intro bs hb hi
    rw [hb, hi]
    rfl

/-- Witness for `loadFromStorage_malformed_spec`: a malformed items blob
after a well-formed boxes blob throws with the boxes already set. -/
theorem loadFromStorage_malformed_spec_witness :
    loadFromStorage (some (Blob.wellFormed [bx1])) (some Blob.malformed) emptyState
      = Except.error { emptyState with boxes := [bx1] } :=
  (loadFromStorage_malformed_spec (some (Blob.wellFormed [bx1]))
    (some Blob.malformed) emptyState).2 [bx1] rfl rfl

/-! ### C7: migration is idempotent and destructive-on-success -/

/-- C7: when both legacy keys are absent the migration is a complete no-op;
a successfully migrated collection's legacy blob is deleted; when neither
blob is malformed a second run is a complete no-op on the result; and the
transactional tables are unchanged by a second run in every case. -/
theorem migrate_idempotent_spec (st : StorageState) :
    (st.lsBoxes = none → st.lsItems = none → migrateFromLocalStorage st = st) ∧
    (∀ bs, st.lsBoxes = some (Blob.wellFormed bs) →
      (migrateFromLocalStorage st).lsBoxes = none) ∧
    (∀ its, st.lsItems = some (Blob.wellFormed its) →
      (migrateFromLocalStorage st).lsItems = none) ∧
    (st.lsBoxes ≠ some Blob.malformed → st.lsItems ≠ some Blob.malformed →
      migrateFromLocalStorage (migrateFromLocalStorage st)
        = migrateFromLocalStorage st) ∧
    (migrateFromLocalStorage (migrateFromLocalStorage st)).dbBoxes
      = (migrateFromLocalStorage st).dbBoxes ∧
    (migrateFromLocalStorage (migrateFromLocalStorage st)).dbItems
      = (migrateFromLocalStorage st).dbItems := by
  obtain ⟨lb, li, db, di, e⟩ := st
  rcases lb with _ | (_ | _ | bs) <;> rcases li with _ | (_ | _ | its) <;>
    simp [migrateFromLocalStorage, migrateBoxesStep, migrateItemsStep, blobTruthy]

/-- Witness for `migrate_idempotent_spec`: one successful run over a
well-formed boxes blob, then a second run, is the same as one run. -/
theorem migrate_idempotent_spec_witness :
    migrateFromLocalStorage (migrateFromLocalStorage
      { lsBoxes := some (Blob.wellFormed [bx1]), lsItems := none,
        dbBoxes := [], dbItems := [], errorLog := 0 })
      = migrateFromLocalStorage
      { lsBoxes := some (Blob.wellFormed [bx1]), lsItems := none,
        dbBoxes := [], dbItems := [], errorLog := 0 } :=
  (migrate_idempotent_spec
    { lsBoxes := some (Blob.wellFormed [bx1]), lsItems := none,
      dbBoxes := [], dbItems := [], errorLog := 0 }).2.2.2.1
    (by decide) (by decide)

/-! ### C8: partial failure of migration -/

/-- C8: when one collection's legacy blob is malformed, its migration is
abandoned — an error is logged, its blob is left in place, its table is
untouched — while the other collection migrates exactly as it would have
with the failing blob absent. -/
theorem migrate_partial_failure_spec (st : StorageState) :
    (st.lsBoxes = some Blob.malformed →
      (migrateFromLocalStorage st).lsBoxes = some Blob.malformed ∧
      (migrateFromLocalStorage st).dbBoxes = st.dbBoxes ∧
      st.errorLog < (migrateFromLocalStorage st).errorLog ∧
      (migrateFromLocalStorage st).lsItems
        = (migrateFromLocalStorage { st with lsBoxes := none }).lsItems ∧
      (migrateFromLocalStorage st).dbItems
        = (migrateFromLocalStorage { st with lsBoxes := none }).dbItems) ∧
    (st.lsItems = some Blob.malformed →
      (migrateFromLocalStorage st).lsItems = some Blob.malformed ∧
      (migrateFromLocalStorage st).dbItems = st.dbItems ∧
      st.errorLog < (migrateFromLocalStorage st).errorLog ∧
      (migrateFromLocalStorage st).lsBoxes
        = (migrateFromLocalStorage { st with lsItems := none }).lsBoxes ∧
      (migrateFromLocalStorage st).dbBoxes
        = (migrateFromLocalStorage { st with lsItems := none }).dbBoxes) := by
  obtain ⟨lb, li, db, di, e⟩ := st
  rcases lb with _ | (_ | _ | bs) <;> rcases li with _ | (_ | _ | its) <;>
    simp [migrateFromLocalStorage, migrateBoxesStep, migrateItemsStep, blobTruthy] <;>
    omega

/-- Witness for `migrate_partial_failure_spec`: malformed boxes blob next to
a well-formed items blob — the error count rises and the stale blob stays. -/
theorem migrate_partial_failure_spec_witness :
    (migrateFromLocalStorage
      { lsBoxes := some Blob.malformed, lsItems := some (Blob.wellFormed [it1]),
        dbBoxes := [], dbItems := [], errorLog := 0 }).lsBoxes
      = some Blob.malformed ∧
    (0 : Nat) < (migrateFromLocalStorage
      { lsBoxes := some Blob.malformed, lsItems := some (Blob.wellFormed [it1]),
        dbBoxes := [], dbItems := [], errorLog := 0 }).errorLog :=
  ⟨((migrate_partial_failure_spec
      { lsBoxes := some Blob.malformed, lsItems := some (Blob.wellFormed [it1]),
        dbBoxes := [], dbItems := [], errorLog := 0 }).1 rfl).1,
   ((migrate_partial_failure_spec
      { lsBoxes := some Blob.malformed, lsItems := some (Blob.wellFormed [it1]),
        dbBoxes := [], dbItems := [], errorLog := 0 }).1 rfl).2.2.1⟩

end BoxTracker
